import Mathlib

/-!
Shallow embedding of the orchestration core of the research_agent repository
(src/agents/orchestrator_agent.py, src/agents/research_agent.py,
src/agents/reflection_agent.py), together with proofs about its query
planner, source collector, draft synthesizer, reflection parser and the
end-to-end workflow.

Python strings are modelled as Lean `String` (sequences of unicode code
points, so `String.length` agrees with Python `len`), and the string
operations the source uses (`split`, `strip`, `in`, `lstrip`, slicing) are
given executable models below.  Each network call to a generation or search
provider is modelled as an explicit input of type `Except String _`
(`.error` = the provider raised), so that "performs no call" is expressed
as independence from that input.
-/

/-- Python ASCII whitespace, as stripped by `str.strip()` with no argument. -/
def pyIsSpace (c : Char) : Bool :=
  c = ' ' || c = '\t' || c = '\n' || c = '\r' || c = '\x0b' || c = '\x0c'

/-- List-level model of Python `str.strip()`. -/
def pyStripL (l : List Char) : List Char :=
  ((l.dropWhile pyIsSpace).reverse.dropWhile pyIsSpace).reverse

/-- Python `s.strip()` (ASCII-whitespace model). -/
def pyStrip (s : String) : String := String.mk (pyStripL s.data)

/-- List-level model of Python substring containment `sep in s`. -/
def pyContainsL (sep : List Char) : List Char → Bool
  | [] => sep.isPrefixOf []
  | c :: t => sep.isPrefixOf (c :: t) || pyContainsL sep t

/-- Python `sep in s`. -/
def pyIn (sep s : String) : Bool := pyContainsL sep.data s.data

/-- Core of Python `s.split(sep)` for a non-empty separator: scan left to
right, cutting at each non-overlapping occurrence of `sep`.  The recursion
is fuel-indexed so that it is structural (hence kernel-reducible); any fuel
of at least the length of the string gives the real behavior, since each
step consumes at least one character. -/
def pySplitCore (sep : List Char) : Nat → List Char → List (List Char)
  | 0, s => [s]
  | fuel+1, s =>
    if sep.isPrefixOf s ∧ sep ≠ [] then
      [] :: pySplitCore sep fuel (s.drop sep.length)
    else
      match s with
      | [] => [[]]
      | c :: t =>
        match pySplitCore sep fuel t with
        | [] => [[c]]
        | p :: ps => (c :: p) :: ps

/-- List-level model of Python `s.split(sep)` (`sep` non-empty; Python
raises on an empty separator, modelled as the no-split result). -/
def pySplitL (sep s : List Char) : List (List Char) :=
  if sep = [] then [s] else pySplitCore sep s.length s

/-- Python `s.split(sep)`. -/
def pySplitS (sep s : String) : List String := (pySplitL sep.data s.data).map String.mk

/-- Core of Python `s.split(sep, 1)`: split only at the first occurrence. -/
def pySplit1Go (sep : List Char) (acc : List Char) : List Char → List (List Char)
  | [] => [acc.reverse]
  | c :: t =>
    if sep.isPrefixOf (c :: t) ∧ sep ≠ [] then [acc.reverse, (c :: t).drop sep.length]
    else pySplit1Go sep (c :: acc) t

/-- Python `s.split(sep, 1)`. -/
def pySplit1S (sep s : String) : List String :=
  (pySplit1Go sep.data [] s.data).map String.mk

/-- Python `s.lstrip(chars)`: drop leading characters belonging to `chars`. -/
def pyLstrip (chars s : String) : String :=
  String.mk (s.data.dropWhile (fun c => chars.data.contains c))

/-- Python `s.startswith(pre)` (list-level, so it kernel-reduces). -/
def pyStartsWith (pre s : String) : Bool := pre.data.isPrefixOf s.data

/-!  ## Reflection / Validator (src/agents/reflection_agent.py)

`ReflectionAgent.validate_and_improve` builds a prompt, issues one
generation call, and parses the raw response text into a pair
`(improved_draft, changes_summary)`.  The parse step (lines 110–125) is the
pure function `parseReflection` below. -/

/-- The parse step of `ReflectionAgent.validate_and_improve`
(src/agents/reflection_agent.py lines 110–125), verbatim: branch on the
presence of both opening delimiters, split on `[IMPROVED_DRAFT]`, cut the
draft at `[/IMPROVED_DRAFT]`, then split the same part on
`[CHANGES_SUMMARY]` and cut at `[/CHANGES_SUMMARY]`. -/
def parseReflection (response_text : String) : String × String :=
  if pyIn "[IMPROVED_DRAFT]" response_text && pyIn "[CHANGES_SUMMARY]" response_text then
    let parts := pySplitS "[IMPROVED_DRAFT]" response_text
    if parts.length > 1 then
      let part1 := parts.getD 1 ""
      let draft_part := pyStrip ((pySplitS "[/IMPROVED_DRAFT]" part1).getD 0 part1)
      let changes_part := pySplitS "[CHANGES_SUMMARY]" part1
      if changes_part.length > 1 then
        let cp1 := changes_part.getD 1 ""
        (draft_part, pyStrip ((pySplitS "[/CHANGES_SUMMARY]" cp1).getD 0 cp1))
      else
        (draft_part, "Changes summary not found in response.")
    else
      (response_text, "Could not parse changes summary from response.")
  else
    (response_text, "Response format not recognized. Full response treated as draft.")

/-!  ## Data model: source records (spec §3)

A source is the Python dict `{url, title, content}` built by
`ResearchAgent.search_sources`; all three keys are always present, possibly
with empty-string values. -/

structure SourceRecord where
  url : String
  title : String
  content : String
deriving DecidableEq, Repr

/-- The response of the Tavily search capability, as consumed by
`ResearchAgent.search_sources`: a (possibly absent, modelled empty) result
list already projected to `{url, title, content}` with `''` defaults, and
an optional `answer` field. -/
structure SearchResponse where
  results : List SourceRecord
  answer : Option String
deriving DecidableEq, Repr

/-- The pure extraction step of `ResearchAgent.search_sources`
(src/agents/research_agent.py lines 54–74): collect the result records,
then, when `response['answer']` is present and truthy (non-empty), insert
the synthetic summary record `{url: 'Tavily Summary', title: 'Search
Summary', content: answer}` at position 0. -/
def searchSourcesExtract (response : SearchResponse) : List SourceRecord :=
  let sources := response.results
  match response.answer with
  | some ans =>
    if ans ≠ "" then
      { url := "Tavily Summary", title := "Search Summary", content := ans } :: sources
    else sources
  | none => sources

/-- `ResearchAgent.search_sources`: the Tavily call is an explicit input;
a provider fault is re-raised with the wrapping message of line 77. -/
def search_sources (tavily : Except String SearchResponse) :
    Except String (List SourceRecord) :=
  match tavily with
  | .ok response => .ok (searchSourcesExtract response)
  | .error e => .error ("Error searching for sources: " ++ e)

/-!  ## Source Collector (src/agents/orchestrator_agent.py lines 105–132)

`OrchestratorAgent.collect_all_sources` runs every query, then merges each
query's result list into the running accumulator `(all_sources, seen_urls)`
one record at a time. -/

/-- One iteration of the inner loop of `collect_all_sources` (lines
124–130): append and record the url if it is non-empty and unseen; append
without recording if the url is empty; otherwise skip. -/
def dedupStep (st : List SourceRecord × List String) (source : SourceRecord) :
    List SourceRecord × List String :=
  if source.url ≠ "" ∧ source.url ∉ st.2 then (st.1 ++ [source], st.2 ++ [source.url])
  else if source.url = "" then (st.1 ++ [source], st.2)
  else st

/-- The merge loop of `collect_all_sources`, over the per-query result
lists (query order, then that query's result order). -/
def collect_merge (resultsPerQuery : List (List SourceRecord)) : List SourceRecord :=
  (resultsPerQuery.foldl (fun st sources => sources.foldl dedupStep st) ([], [])).1

/-- `OrchestratorAgent.collect_all_sources` itself: each query's search is
an explicit input that may fail; a search failure propagates (there is no
try/except around `search_sources` in the collector). -/
def collectGo (search : String → Nat → Except String (List SourceRecord))
    (max_sources_per_query : Nat) :
    List String → List SourceRecord × List String → Except String (List SourceRecord)
  | [], st => .ok st.1
  | q :: rest, st =>
    match search q max_sources_per_query with
    | .error e => .error e
    | .ok sources => collectGo search max_sources_per_query rest (sources.foldl dedupStep st)

def collect_all_sources (search : String → Nat → Except String (List SourceRecord))
    (queries : List String) (max_sources_per_query : Nat) :
    Except String (List SourceRecord) :=
  collectGo search max_sources_per_query queries ([], [])

/-!  Auxiliary functional descriptions of the merge loop, used to reason
about it: `keepNew seen l` is the sublist of `l` the loop appends when the
url set is `seen`, and `seenAfter seen l` is the url set afterwards. -/

def keepNew (seen : List String) : List SourceRecord → List SourceRecord
  | [] => []
  | s :: rest =>
    if s.url ≠ "" ∧ s.url ∉ seen then s :: keepNew (seen ++ [s.url]) rest
    else if s.url = "" then s :: keepNew seen rest
    else keepNew seen rest

def seenAfter (seen : List String) : List SourceRecord → List String
  | [] => seen
  | s :: rest =>
    if s.url ≠ "" ∧ s.url ∉ seen then seenAfter (seen ++ [s.url]) rest
    else seenAfter seen rest

/-!  ## Query Planner (src/agents/orchestrator_agent.py lines 29–103)

`OrchestratorAgent.split_query` combines topic and requirements, returns
`[topic]` when the combination is short enough, and otherwise issues one
generation call and parses its response as a numbered list. -/

/-- Lines 42–44: the combined request.  Python `if requirements:` is false
for both `None` and the empty string. -/
def fullRequest (topic : String) (requirements : Option String) : String :=
  match requirements with
  | some r => if r ≠ "" then topic ++ "\n\nRequirements: " ++ r else topic
  | none => topic

/-- The split prompt assembled in lines 51–69. -/
def splitPrompt (topic : String) (requirements : Option String) : String :=
  "You are a query optimization agent. Your task is to split a lengthy research request into multiple focused search queries that can be used with a search API.\n\nOriginal Request:\n"
  ++ topic ++ "\n\n"
  ++ (match requirements with
      | some r => if r ≠ "" then "Requirements:\n" ++ r ++ "\n\n" else ""
      | none => "")
  ++ "Please split this into 2-5 focused search queries that:\n1. Cover different aspects or sub-topics of the main request\n2. Are specific and searchable (each under 200 characters)\n3. Together comprehensively cover the original request\n4. Can be executed independently\n\nReturn ONLY a numbered list of queries, one per line, like:\n1. First focused query\n2. Second focused query\n3. Third focused query"

/-- Python `line[0].isdigit()` guarded by non-emptiness. -/
def headIsDigit (s : String) : Bool :=
  match s.data with
  | [] => false
  | c :: _ => c.isDigit

/-- The response-parsing loop of `split_query` (lines 85–92): scan the
lines of the (stripped) response; a stripped line whose first character is
a digit or a dash contributes the text after its first `.` (or, with no
dot, the line with leading `-`/space characters stripped), provided that
text is non-empty with length over 10. -/
def parseQueries (queries_text : String) : List String :=
  (pySplitS "\n" queries_text).foldl
    (fun queries line0 =>
      let line := pyStrip line0
      if line ≠ "" ∧ (headIsDigit line || pyStartsWith "-" line) then
        let query :=
          if pyIn "." line then pyStrip ((pySplit1S "." line).getLastD line)
          else pyStrip (pyLstrip "- " line)
        if query ≠ "" ∧ 10 < query.length then queries ++ [query] else queries
      else queries)
    []

/-- `OrchestratorAgent.split_query`.  The generation call is the explicit
input `gen` (applied to the split prompt); any provider failure lands in
the `except` clause of lines 100–103 and falls back to `[topic]`. -/
def split_query (topic : String) (requirements : Option String)
    (max_query_length : Nat) (gen : String → Except String String) : List String :=
  if (fullRequest topic requirements).length ≤ max_query_length then [topic]
  else
    match gen (splitPrompt topic requirements) with
    | .error _ => [topic]
    | .ok content =>
      let queries_text := pyStrip content
      let queries := parseQueries queries_text
      if queries = [] then [topic] else queries

/-!  ## Draft Synthesizer (src/agents/research_agent.py lines 155–266) -/

/-- One source block of the prompt loop in lines 184–189, with the content
truncated to its first 1000 characters at consumption time. -/
def sourceBlock (i : Nat) (s : SourceRecord) : String :=
  "\nSource " ++ toString i ++ ":\n"
  ++ "Title: " ++ s.title ++ "\n"
  ++ "URL: " ++ s.url ++ "\n"
  ++ "Content: " ++ s.content.take 1000 ++ "\n"
  ++ String.mk (List.replicate 50 '-') ++ "\n"

/-- The `enumerate(sources, 1)` loop of the prompt builder. -/
def sourcesSection (i : Nat) : List SourceRecord → String
  | [] => ""
  | s :: rest => sourceBlock i s ++ sourcesSection (i + 1) rest

/-- Head of the synthesis prompt (lines 173–179). -/
def createDraftPromptHead (topic : String) (requirements : Option String) : String :=
  "You are a research agent. Your task is to research the following topic and create a comprehensive draft document using the provided sources.\n\nTopic: "
  ++ topic ++ "\n"
  ++ (match requirements with
      | some r => if r ≠ "" then "\nRequirements to consider:\n" ++ r ++ "\n" else ""
      | none => "")

/-- Tail of the synthesis prompt (the instruction block of lines 193–248). -/
def createDraftPromptTail : String :=
  "\nCRITICAL REQUIREMENTS:\n- Base all statements on facts identified in the provided sources\n- Every factual claim MUST be followed by a citation (e.g., [Source 1], [Source 3])\n- Make meaningful statements and insights based on the facts, not just list facts\n- For each finding or fact identified, provide multiple related statements that explain, contextualize, or elaborate on that finding\n- Ensure a decent amount of content per finding (aim for 3-5 statements per major finding)\n- Do not add speculation, assumptions, or unsupported claims beyond what the sources provide\n- If information is not available in the sources, do not include it\n\nUsing only the provided sources, produce a well-structured, evidence-based research draft on the given topic.\n\nThe document should:\n\t•\tBegin with a concise introduction that defines the topic and scope based on the sources\n\t•\tPresent the core findings, observations, and documented issues drawn from the sources\n\t•\tFor each finding, provide multiple statements that:\n\t\t- State the fact clearly\n\t\t- Explain its significance or context\n\t\t- Describe related details or implications\n\t\t- Connect it to other findings when relevant\n\t\t- Provide examples or specifics when available\n\nFor the main body of the document:\n\t•\tDo NOT follow a fixed or predefined structure\n\t•\tInstead, derive a logical structure that best fits the research topic and the nature of the evidence\n\t•\tOrganize content into clear, meaningful sections (with headings) such as:\n\t\t- Documented events or incidents\n\t\t- Reported impacts or consequences\n\t\t- Regulatory actions, enforcement, or responses\n\t\t- Patterns, frequency, or trends explicitly noted in the sources\n\t\t- Geographic, temporal, or community-specific details\n\t•\tSection titles and ordering should emerge naturally from what the sources emphasize\n\n    Each section must:\n\t•\tContain source-supported facts with multiple statements per finding\n\t•\tInclude citations for every factual statement\n\t•\tProvide adequate elaboration and context for each finding\n\t•\tSynthesize multiple sources when they provide related information\n\nConclusion\n\t•\tProvide a comprehensive summary of the documented facts and findings\n\t•\tDo not introduce new information\n\t•\tAll statements must be cited\n\nSources\n\t•\tInclude a clearly labeled \"Sources\" section\n\t•\tList all referenced sources with their URLs\n\t•\tUse consistent numbering that matches in-text citations (e.g., [Source 1])\n\nMake sure to:\n- Cite sources appropriately when using information from them (use [Source X] format)\n- Synthesize information from multiple sources when they provide related facts\n- Ensure the content is comprehensive, informative, accurate, and well-organized\n- Include proper attribution to sources for EVERY factual statement\n- Provide sufficient elaboration and context for each finding (aim for 3-5 statements per major finding)\n- If a source contradicts another, note the discrepancy with citations"

/-- `ResearchAgent.create_draft_from_sources`: with an empty source list
the `else` of line 190 raises `ValueError` before any generation call; the
generation call itself is the explicit input `gen`, and its failure is
re-raised with the wrapping message of line 266. -/
def create_draft_from_sources (topic : String) (sources : List SourceRecord)
    (requirements : Option String) (gen : String → Except String String) :
    Except String String :=
  if sources = [] then
    .error "No sources provided. Cannot create draft without sources."
  else
    match gen (createDraftPromptHead topic requirements
        ++ "\n\nSources found:\n" ++ sourcesSection 1 sources
        ++ createDraftPromptTail) with
    | .ok draft => .ok draft
    | .error e => .error ("Error creating draft: " ++ e)

/-!  ## Reflection agent entry point -/

/-- Tail of the reflection prompt (the instruction block of lines 53–93 of
src/agents/reflection_agent.py). -/
def reflectionPromptTail : String :=
  "\nCRITICAL VALIDATION REQUIREMENTS:\n- Verify that factual statements have proper citations (e.g., [Source X])\n- DO NOT remove text unless it is clearly not supported by any facts in the sources\n- Be conservative: if a statement could be inferred from the sources, keep it\n- Only remove statements that are clearly unsupported, speculative, or contradictory to the sources\n- Validate that all citations reference actual sources from the draft\n- Preserve the content and elaboration provided in the original draft\n\nPlease:\n1. Validate the draft against the topic and requirements (if provided)\n2. Check that factual statements are properly cited with source references\n3. Identify any statements that are clearly unsupported by sources (be conservative - only flag obvious issues)\n4. Identify any inaccuracies, gaps, or areas for improvement\n5. Check for clarity, structure, and completeness\n6. Make necessary corrections while preserving as much original content as possible\n7. Enhance the content with better explanations, examples, or details where needed (all must be cited)\n8. Ensure the draft meets all specified requirements\n9. Verify the Sources section is complete and accurate\n\nIMPORTANT: \n- Preserve the original content structure and elaboration\n- Only make changes that are clearly necessary\n- Do not remove content unless it is definitively unsupported by facts\n- If you\x27re unsure whether something is supported, keep it\n\nProvide your response in the following format:\n\n[IMPROVED_DRAFT]\n[Your improved draft here]\n[/IMPROVED_DRAFT]\n\n[CHANGES_SUMMARY]\nA detailed summary of all changes made, including:\n- Any text removed and why (only if clearly unsupported)\n- Any text added or modified and why\n- Citation corrections made\n- Structural improvements\n- Any other modifications\nIf no changes were made, state \"No changes required - draft is valid.\"\n[/CHANGES_SUMMARY]"

/-- The reflection prompt of lines 40–93. -/
def reflectionPrompt (draft topic : String) (requirements : Option String) : String :=
  "You are a reflection and validation agent. Your task is to review, validate, and improve a research draft.\n\nOriginal Topic: "
  ++ topic ++ "\n\nInitial Draft:\n---\n" ++ draft ++ "\n---\n"
  ++ (match requirements with
      | some r => if r ≠ "" then "\nRequirements to validate against:\n" ++ r ++ "\n" else ""
      | none => "")
  ++ reflectionPromptTail

/-- `ReflectionAgent.validate_and_improve`: one generation call whose raw
response is fed to `parseReflection`; a provider failure is re-raised with
the wrapping message of line 130. -/
def validate_and_improve (gen : String → Except String String)
    (draft topic : String) (requirements : Option String) :
    Except String (String × String) :=
  match gen (reflectionPrompt draft topic requirements) with
  | .ok response_text => .ok (parseReflection response_text)
  | .error e => .error ("Error validating and improving draft: " ++ e)

/-!  ## Orchestrated workflow (src/agents/orchestrator_agent.py lines 134–190) -/

/-- A value of the Python result dictionary: the code stores the draft
string, the reflection *pair*, and two integers. -/
inductive WFValue where
  | str : String → WFValue
  | pair : String → String → WFValue
  | num : Nat → WFValue
deriving DecidableEq, Repr

/-- The external capabilities consumed by one workflow run: the planner,
synthesis and reflection generation calls and the per-query search. -/
structure WorkflowEnv where
  splitGen : String → Except String String
  search : String → Nat → Except String (List SourceRecord)
  draftGen : String → Except String String
  reflectGen : String → Except String String

/-- `OrchestratorAgent.execute_research_workflow`: plan, collect, draft,
reflect; each stage's exception propagates, and on success the dict literal
of lines 185–190 is returned with keys `draft`, `improved_draft` (bound to
the tuple returned by `validate_and_improve`), `sources_count` and
`queries_count`. -/
def execute_research_workflow (env : WorkflowEnv) (topic : String)
    (requirements : Option String) (max_sources_per_query max_query_length : Nat) :
    Except String (List (String × WFValue)) :=
  let queries := split_query topic requirements max_query_length env.splitGen
  match collect_all_sources env.search queries max_sources_per_query with
  | .error e => .error e
  | .ok all_sources =>
    match create_draft_from_sources topic all_sources requirements env.draftGen with
    | .error e => .error e
    | .ok draft =>
      match validate_and_improve env.reflectGen draft topic requirements with
      | .error e => .error e
      | .ok improved_draft =>
        .ok [("draft", WFValue.str draft),
             ("improved_draft", WFValue.pair improved_draft.1 improved_draft.2),
             ("sources_count", WFValue.num all_sources.length),
             ("queries_count", WFValue.num queries.length)]

/-!  ## Specification-side definitions and concrete example inputs -/

/-- `parseReflection` with the dead inner branch excised: identical to the
source parser except that the `len(parts) > 1` guard (and its `else`
yielding `"Could not parse changes summary from response."`) is removed.
Claim C10 states the two functions agree on every input. -/
def parseReflectionNoFallback (response_text : String) : String × String :=
  if pyIn "[IMPROVED_DRAFT]" response_text && pyIn "[CHANGES_SUMMARY]" response_text then
    let parts := pySplitS "[IMPROVED_DRAFT]" response_text
    let part1 := parts.getD 1 ""
    let draft_part := pyStrip ((pySplitS "[/IMPROVED_DRAFT]" part1).getD 0 part1)
    let changes_part := pySplitS "[CHANGES_SUMMARY]" part1
    if changes_part.length > 1 then
      let cp1 := changes_part.getD 1 ""
      (draft_part, pyStrip ((pySplitS "[/CHANGES_SUMMARY]" cp1).getD 0 cp1))
    else
      (draft_part, "Changes summary not found in response.")
  else
    (response_text, "Response format not recognized. Full response treated as draft.")

/-- The per-line qualification-and-extraction rule, as a standalone
function (the amended claim C9): a stripped line qualifies exactly when it
is non-empty, begins with a digit or a dash, and its extracted query — the
stripped text after the first `.` when the line contains one, otherwise the
line with leading `-`/space characters stripped, then stripped — has length
greater than 10. -/
def lineQuery (line0 : String) : Option String :=
  let line := pyStrip line0
  if line ≠ "" ∧ (headIsDigit line || pyStartsWith "-" line) then
    let query :=
      if pyIn "." line then pyStrip ((pySplit1S "." line).getLastD line)
      else pyStrip (pyLstrip "- " line)
    if query ≠ "" ∧ 10 < query.length then some query else none
  else none

/-- Modelled from the spec: claim C9's literal qualification rule, "after
stripping a leading ordinal marker (`\x22N.\x22` or `\x22- \x22`), the
remaining text has length greater than 10 units". -/
def specStripOrdinal (line : String) : String :=
  if pyStartsWith "- " line then String.mk (line.data.drop 2)
  else
    let ds := line.data.takeWhile Char.isDigit
    if ds ≠ [] ∧ ['.'].isPrefixOf (line.data.drop ds.length) then
      String.mk (line.data.drop (ds.length + 1))
    else line

/-- Modelled from the spec: a line qualifies per claim C9's stated rule. -/
def specQualifies (line : String) : Bool :=
  decide (10 < (specStripOrdinal line).length)

/-- Two query results carrying the same non-empty url (the §8 scenario). -/
def exRecA1 : SourceRecord := { url := "http://a.example", title := "A first", content := "one" }

def exRecA2 : SourceRecord := { url := "http://a.example", title := "A second", content := "two" }

def exQueryResults : List (List SourceRecord) := [[exRecA1], [exRecA2]]

/-- A zero-identity record, as a search-provider summary is specified to be. -/
def exSummaryRec : SourceRecord := { url := "", title := "Search Summary", content := "synth" }

def exEmptyUrlResults : List (List SourceRecord) := [[exSummaryRec]]

def exRecB : SourceRecord := { url := "http://b.example", title := "B", content := "cb" }

def exNonEmptyResults : List (List SourceRecord) := [[exRecA1], [exRecB]]

/-- A search response whose `answer` field is present and non-empty. -/
def exAnswerResponse : SearchResponse :=
  { results := [{ url := "http://r.example", title := "R", content := "cr" }]
    answer := some "A synthesized answer" }

/-- The summary record the code builds for `exAnswerResponse`. -/
def exSummaryBuilt : SourceRecord :=
  { url := "Tavily Summary", title := "Search Summary", content := "A synthesized answer" }

/-- A fully successful concrete environment: the planner generation fails
(absorbed), search succeeds on every query, and both generation stages
return well-formed text. -/
def exEnv : WorkflowEnv :=
  { splitGen := fun _ => .error "timeout"
    search := fun _ _ => .ok [⟨"http://a.example", "A", "ca"⟩]
    draftGen := fun _ => .ok "The draft. [Source 1]"
    reflectGen := fun _ => .ok "[IMPROVED_DRAFT]\nBetter draft. [Source 1]\n[/IMPROVED_DRAFT]\n[CHANGES_SUMMARY]\nTightened wording.\n[/CHANGES_SUMMARY]" }

/-- The dict `execute_research_workflow` returns in the `exEnv` run. -/
def exWorkflowDict : List (String × WFValue) :=
  [("draft", WFValue.str "The draft. [Source 1]"),
   ("improved_draft", WFValue.pair "Better draft. [Source 1]" "Tightened wording."),
   ("sources_count", WFValue.num 1),
   ("queries_count", WFValue.num 1)]

/-!  ## Library lemmas about the Python string model -/

theorem pySplitCore_ne_nil (sep : List Char) (fuel : Nat) (s : List Char) :
    pySplitCore sep fuel s ≠ [] := by
  cases fuel with
  | zero => simp [pySplitCore]
  | succ n =>
    simp only [pySplitCore]
    split
    · simp
    · cases s with
      | nil => simp
      | cons c t => cases h : pySplitCore sep n t <;> simp [h]

theorem isPrefixOf_nil_eq_false (sep : List Char) (hsep : sep ≠ []) :
    sep.isPrefixOf ([] : List Char) = false := by
  cases sep with
  | nil => exact absurd rfl hsep
  | cons a as => rfl

theorem one_lt_pySplitCore_length (sep : List Char) (hsep : sep ≠ []) :
    ∀ (fuel : Nat) (s : List Char), s.length ≤ fuel →
      pyContainsL sep s = true → 1 < (pySplitCore sep fuel s).length := by
  intro fuel
  induction fuel with
  | zero =>
    intro s hlen hc
    have hs : s = [] := List.length_eq_zero.mp (Nat.le_zero.mp hlen)
    subst hs
    simp [pyContainsL, isPrefixOf_nil_eq_false sep hsep] at hc
  | succ n ih =>
    intro s hlen hc
    simp only [pySplitCore]
    by_cases hp : sep.isPrefixOf s ∧ sep ≠ []
    · rw [if_pos hp]
      have h1 : pySplitCore sep n (s.drop sep.length) ≠ [] :=
        pySplitCore_ne_nil sep n (s.drop sep.length)
      have h2 : 0 < (pySplitCore sep n (s.drop sep.length)).length :=
        List.length_pos.mpr h1
      simp only [List.length_cons]
      omega
    · rw [if_neg hp]
      cases s with
      | nil => simp [pyContainsL, isPrefixOf_nil_eq_false sep hsep] at hc
      | cons c t =>
        have hnp : ¬ sep.isPrefixOf (c :: t) = true := fun h => hp ⟨h, hsep⟩
        have hct : pyContainsL sep t = true := by
          simp only [pyContainsL, Bool.or_eq_true] at hc
          rcases hc with hc | hc
          · exact absurd hc hnp
          · exact hc
        have hlt : t.length ≤ n := by
          simp only [List.length_cons] at hlen
          omega
        have hmain := ih t hlt hct
        cases hres : pySplitCore sep n t with
        | nil => rw [hres] at hmain; simp at hmain
        | cons p ps =>
          rw [hres] at hmain
          simp only [List.length_cons] at hmain ⊢
          simp only [hres]
          simp only [List.length_cons]
          omega

theorem string_data_ne_nil {s : String} (h : s ≠ "") : s.data ≠ [] := by
  intro h0
  apply h
  cases s
  simp only [String.data] at h0
  simp [h0]

/-- Python: if `sep in s` (for non-empty `sep`), then `s.split(sep)` has at
least two parts. -/
theorem one_lt_pySplitS_length (sep s : String) (hsep : sep ≠ "")
    (h : pyIn sep s = true) : 1 < (pySplitS sep s).length := by
  have hd : sep.data ≠ [] := string_data_ne_nil hsep
  simp only [pySplitS, pySplitL, List.length_map, if_neg hd]
  exact one_lt_pySplitCore_length sep.data hd s.data.length s.data le_rfl h

/-!  ## Lemmas about the source-collector merge loop -/

theorem foldl_dedupStep_eq (l : List SourceRecord) :
    ∀ (all : List SourceRecord) (seen : List String),
      l.foldl dedupStep (all, seen) = (all ++ keepNew seen l, seenAfter seen l) := by
  induction l with
  | nil => intro all seen; simp [keepNew, seenAfter]
  | cons s rest ih =>
    intro all seen
    by_cases h1 : s.url ≠ "" ∧ s.url ∉ seen
    · simp only [List.foldl_cons, dedupStep, keepNew, seenAfter, if_pos h1, ih]
      simp
    · by_cases h2 : s.url = ""
      · have h1' : ¬ (s.url ≠ "" ∧ s.url ∉ seen) := h1
        simp only [List.foldl_cons, dedupStep, keepNew, seenAfter, if_neg h1', if_pos h2, ih]
        simp
      · have h1' : ¬ (s.url ≠ "" ∧ s.url ∉ seen) := h1
        simp only [List.foldl_cons, dedupStep, keepNew, seenAfter, if_neg h1', if_neg h2, ih]

theorem foldl_collect_join (rs : List (List SourceRecord)) :
    ∀ st : List SourceRecord × List String,
      rs.foldl (fun st sources => sources.foldl dedupStep st) st
        = rs.flatten.foldl dedupStep st := by
  induction rs with
  | nil => intro st; simp
  | cons l rest ih =>
    intro st
    simp only [List.foldl_cons, List.flatten_cons, List.foldl_append]
    exact ih (l.foldl dedupStep st)

/-- The collector's merge, in closed form. -/
theorem collect_merge_eq_keepNew (rs : List (List SourceRecord)) :
    collect_merge rs = keepNew [] rs.flatten := by
  simp [collect_merge, foldl_collect_join, foldl_dedupStep_eq]

theorem keepNew_sublist (l : List SourceRecord) :
    ∀ seen : List String, List.Sublist (keepNew seen l) l := by
  induction l with
  | nil => intro seen; simp [keepNew]
  | cons s rest ih =>
    intro seen
    by_cases h1 : s.url ≠ "" ∧ s.url ∉ seen
    · simpa [keepNew, if_pos h1] using List.Sublist.cons₂ s (ih (seen ++ [s.url]))
    · by_cases h2 : s.url = ""
      · simpa [keepNew, if_neg h1, if_pos h2] using List.Sublist.cons₂ s (ih seen)
      · simpa [keepNew, if_neg h1, if_neg h2] using List.Sublist.cons s (ih seen)

theorem keepNew_mem_not_seen (l : List SourceRecord) :
    ∀ (seen : List String) (r : SourceRecord),
      r ∈ keepNew seen l → r.url ≠ "" → r.url ∉ seen := by
  induction l with
  | nil => intro seen r hr; simp [keepNew] at hr
  | cons s rest ih =>
    intro seen r hr hne
    by_cases h1 : s.url ≠ "" ∧ s.url ∉ seen
    · rw [keepNew, if_pos h1] at hr
      rcases List.mem_cons.mp hr with hr | hr
      · subst hr; exact h1.2
      · intro hmem
        exact ih (seen ++ [s.url]) r hr hne (List.mem_append_left _ hmem)
    · by_cases h2 : s.url = ""
      · rw [keepNew, if_neg h1, if_pos h2] at hr
        rcases List.mem_cons.mp hr with hr | hr
        · subst hr; exact absurd h2 hne
        · exact ih seen r hr hne
      · rw [keepNew, if_neg h1, if_neg h2] at hr
        exact ih seen r hr hne

theorem keepNew_pairwise (l : List SourceRecord) :
    ∀ seen : List String,
      List.Pairwise (fun a b => a.url = "" ∨ b.url = "" ∨ a.url ≠ b.url) (keepNew seen l) := by
  induction l with
  | nil => intro seen; simp [keepNew]
  | cons s rest ih =>
    intro seen
    by_cases h1 : s.url ≠ "" ∧ s.url ∉ seen
    · rw [keepNew, if_pos h1]
      refine List.Pairwise.cons ?_ (ih (seen ++ [s.url]))
      intro b hb
      by_cases hbe : b.url = ""
      · exact Or.inr (Or.inl hbe)
      · refine Or.inr (Or.inr ?_)
        have := keepNew_mem_not_seen rest (seen ++ [s.url]) b hb hbe
        intro heq
        exact this (by rw [← heq]; exact List.mem_append_right _ (List.mem_singleton.mpr rfl))
    · by_cases h2 : s.url = ""
      · rw [keepNew, if_neg h1, if_pos h2]
        exact List.Pairwise.cons (fun b _ => Or.inl h2) (ih seen)
      · rw [keepNew, if_neg h1, if_neg h2]
        exact ih seen

theorem keepNew_filter (l : List SourceRecord) :
    ∀ (seen : List String) (u : String), u ≠ "" →
      (keepNew seen l).filter (fun r => r.url == u)
        = if u ∈ seen then [] else (l.filter (fun r => r.url == u)).take 1 := by
  induction l with
  | nil =>
    intro seen u hu
    by_cases h : u ∈ seen <;> simp [keepNew, h]
  | cons s rest ih =>
    intro seen u hu
    by_cases h1 : s.url ≠ "" ∧ s.url ∉ seen
    · rw [keepNew, if_pos h1]
      by_cases heq : s.url = u
      · have hus : u ∉ seen := heq ▸ h1.2
        have hs : (s.url == u) = true := beq_iff_eq.mpr heq
        have hK : List.filter (fun r => r.url == u) (keepNew (seen ++ [s.url]) rest) = [] := by
          rw [List.filter_eq_nil_iff]
          intro a ha
          simp only [beq_iff_eq]
          intro hau
          by_cases hae : a.url = ""
          · exact hu (by rw [← hau]; exact hae)
          · apply keepNew_mem_not_seen rest (seen ++ [s.url]) a ha hae
            rw [hau, ← heq]
            exact List.mem_append_right _ (List.mem_singleton.mpr rfl)
        rw [if_neg hus]
        simp [List.filter_cons, hs, hK]
      · have hs : (s.url == u) = false := beq_eq_false_iff_ne.mpr heq
        have htail := ih (seen ++ [s.url]) u hu
        have humem : (u ∈ seen ++ [s.url]) ↔ u ∈ seen := by
          constructor
          · intro h
            rcases List.mem_append.mp h with h | h
            · exact h
            · exact absurd (List.mem_singleton.mp h).symm heq
          · intro h
            exact List.mem_append_left _ h
        by_cases hus : u ∈ seen
        · rw [if_pos hus]
          rw [if_pos (humem.mpr hus)] at htail
          simp [List.filter_cons, hs, htail]
        · rw [if_neg hus]
          rw [if_neg (fun h => hus (humem.mp h))] at htail
          simp [List.filter_cons, hs, htail]
    · by_cases h2 : s.url = ""
      · rw [keepNew, if_neg h1, if_pos h2]
        have hs : (s.url == u) = false :=
          beq_eq_false_iff_ne.mpr (by rw [h2]; exact Ne.symm hu)
        have htail := ih seen u hu
        by_cases hus : u ∈ seen
        · rw [if_pos hus] at htail ⊢
          simp [List.filter_cons, hs, htail]
        · rw [if_neg hus] at htail ⊢
          simp [List.filter_cons, hs, htail]
      · rw [keepNew, if_neg h1, if_neg h2]
        have hseen : s.url ∈ seen := by
          by_contra hc
          exact h1 ⟨h2, hc⟩
        by_cases heq : s.url = u
        · have hus : u ∈ seen := heq ▸ hseen
          rw [if_pos hus]
          have htail := ih seen u hu
          rw [if_pos hus] at htail
          exact htail
        · have hs : (s.url == u) = false := beq_eq_false_iff_ne.mpr heq
          have htail := ih seen u hu
          by_cases hus : u ∈ seen
          · rw [if_pos hus] at htail ⊢
            exact htail
          · rw [if_neg hus] at htail ⊢
            rw [htail]
            simp [List.filter_cons, hs]

theorem seenAfter_subset (l : List SourceRecord) :
    ∀ (seen : List String) (u : String), u ∈ seen → u ∈ seenAfter seen l := by
  induction l with
  | nil => intro seen u hu; simpa [seenAfter] using hu
  | cons s rest ih =>
    intro seen u hu
    by_cases h1 : s.url ≠ "" ∧ s.url ∉ seen
    · rw [seenAfter, if_pos h1]
      exact ih (seen ++ [s.url]) u (List.mem_append_left _ hu)
    · rw [seenAfter, if_neg h1]
      exact ih seen u hu

theorem mem_seenAfter (l : List SourceRecord) :
    ∀ (seen : List String) (r : SourceRecord), r ∈ l → r.url ≠ "" →
      r.url ∈ seenAfter seen l := by
  induction l with
  | nil => intro seen r hr; simp at hr
  | cons s rest ih =>
    intro seen r hr hne
    by_cases h1 : s.url ≠ "" ∧ s.url ∉ seen
    · rw [seenAfter, if_pos h1]
      rcases List.mem_cons.mp hr with hr | hr
      · subst hr
        exact seenAfter_subset rest (seen ++ [r.url]) r.url
          (List.mem_append_right _ (List.mem_singleton.mpr rfl))
      · exact ih (seen ++ [s.url]) r hr hne
    · rw [seenAfter, if_neg h1]
      rcases List.mem_cons.mp hr with hr | hr
      · subst hr
        have hseen : r.url ∈ seen := by
          by_contra hc
          exact h1 ⟨hne, hc⟩
        exact seenAfter_subset rest seen r.url hseen
      · exact ih seen r hr hne

theorem keepNew_eq_nil_of_seen (l : List SourceRecord) :
    ∀ seen : List String, (∀ r ∈ l, r.url ≠ "" ∧ r.url ∈ seen) →
      keepNew seen l = [] := by
  induction l with
  | nil => intro seen _; simp [keepNew]
  | cons s rest ih =>
    intro seen hall
    have hs := hall s (List.mem_cons_self s rest)
    have h1 : ¬ (s.url ≠ "" ∧ s.url ∉ seen) := fun h => h.2 hs.2
    rw [keepNew, if_neg h1, if_neg (fun h => hs.1 h)]
    exact ih seen (fun r hr => hall r (List.mem_cons_of_mem s hr))

theorem seenAfter_append (a b : List SourceRecord) :
    ∀ seen : List String, seenAfter seen (a ++ b) = seenAfter (seenAfter seen a) b := by
  induction a with
  | nil => intro seen; simp [seenAfter]
  | cons s rest ih =>
    intro seen
    by_cases h1 : s.url ≠ "" ∧ s.url ∉ seen
    · rw [List.cons_append, seenAfter, if_pos h1, seenAfter, if_pos h1, ih]
    · rw [List.cons_append, seenAfter, if_neg h1, seenAfter, if_neg h1, ih]

theorem keepNew_append (a b : List SourceRecord) :
    ∀ seen : List String,
      keepNew seen (a ++ b) = keepNew seen a ++ keepNew (seenAfter seen a) b := by
  induction a with
  | nil => intro seen; simp [keepNew, seenAfter]
  | cons s rest ih =>
    intro seen
    by_cases h1 : s.url ≠ "" ∧ s.url ∉ seen
    · rw [List.cons_append, keepNew, if_pos h1, keepNew, if_pos h1, seenAfter, if_pos h1,
        ih, List.cons_append]
    · by_cases h2 : s.url = ""
      · rw [List.cons_append, keepNew, if_neg h1, if_pos h2, keepNew, if_neg h1, if_pos h2,
          seenAfter, if_neg h1, ih, List.cons_append]
      · rw [List.cons_append, keepNew, if_neg h1, if_neg h2, keepNew, if_neg h1, if_neg h2,
          seenAfter, if_neg h1, ih]

/-- The collector applied to always-succeeding searches is exactly the pure
merge of the per-query result lists. -/
theorem collect_all_sources_pure (f : String → List SourceRecord)
    (queries : List String) (m : Nat) :
    collect_all_sources (fun q _ => .ok (f q)) queries m
      = .ok (collect_merge (queries.map f)) := by
  suffices h : ∀ st : List SourceRecord × List String,
      collectGo (fun q _ => .ok (f q)) m queries st
        = .ok (((queries.map f).foldl (fun st sources => sources.foldl dedupStep st) st).1) by
    exact h ([], [])
  induction queries with
  | nil => intro st; rfl
  | cons q rest ih =>
    intro st
    rw [collectGo]
    simp only [List.map_cons, List.foldl_cons]
    exact ih (List.foldl dedupStep st (f q))

/-!  ## Lemmas about the planner's response parsing -/

theorem foldl_filterMap_gen {α β : Type} (g : α → Option β) (step : List β → α → List β)
    (hstep : ∀ (acc : List β) (x : α), step acc x = acc ++ (g x).toList)
    (l : List α) : ∀ init : List β, l.foldl step init = init ++ l.filterMap g := by
  induction l with
  | nil => intro init; simp
  | cons x xs ih =>
    intro init
    rw [List.foldl_cons, hstep, List.filterMap_cons]
    cases hg : g x with
    | none =>
      simp only [hg, Option.toList, List.append_nil]
      exact ih init
    | some q =>
      simp only [hg, Option.toList]
      rw [ih (init ++ [q])]
      simp

theorem parseQueries_step (acc : List String) (x : String) :
    (fun (queries : List String) (line0 : String) =>
      let line := pyStrip line0
      if line ≠ "" ∧ (headIsDigit line || pyStartsWith "-" line) then
        let query :=
          if pyIn "." line then pyStrip ((pySplit1S "." line).getLastD line)
          else pyStrip (pyLstrip "- " line)
        if query ≠ "" ∧ 10 < query.length then queries ++ [query] else queries
      else queries) acc x
    = acc ++ (lineQuery x).toList := by
  simp only [lineQuery]
  split
  · split
    · split
      · simp
      · simp
    · split
      · simp
      · simp
  · simp

/-!  ## Claim theorems -/

/-- C1: the reflection parse step is the total Lean function
`parseReflection : String → String × String`, so every input — including
the empty string, a string containing only `[IMPROVED_DRAFT]` with no
closing tag, and a string with no delimiters — yields a
`(revised_draft, change_summary)` pair with no exceptional outcome; and
whenever either outer delimiter pair is missing entirely (so in particular
its opening tag is absent), the revised draft is the full raw response and
the summary is the fixed fallback message. -/
theorem reflection_parse_total_fallback (s : String)
    (h : pyIn "[IMPROVED_DRAFT]" s = false ∨ pyIn "[CHANGES_SUMMARY]" s = false) :
    parseReflection s
      = (s, "Response format not recognized. Full response treated as draft.") := by
  have hcond : (pyIn "[IMPROVED_DRAFT]" s && pyIn "[CHANGES_SUMMARY]" s) = false := by
    rcases h with h | h <;> simp [h]
  simp [parseReflection, hcond]

theorem reflection_parse_total_fallback_witness :
    parseReflection "just some text"
      = ("just some text",
         "Response format not recognized. Full response treated as draft.") :=
  reflection_parse_total_fallback "just some text" (Or.inl (by decide))

/-- C2: the Source Collector's merge keeps the surviving records in
concatenation order (its output is a sublist of the concatenation of the
per-query results, query order then result order), never keeps two records
with the same non-empty url, and for every non-empty url the surviving
record is exactly the first-encountered record with that url. -/
theorem collect_merge_dedup (rs : List (List SourceRecord)) :
    List.Sublist (collect_merge rs) rs.flatten
    ∧ List.Pairwise (fun a b => a.url = "" ∨ b.url = "" ∨ a.url ≠ b.url) (collect_merge rs)
    ∧ ∀ u : String, u ≠ "" →
        (collect_merge rs).filter (fun r => r.url == u)
          = (rs.flatten.filter (fun r => r.url == u)).take 1 := by
  rw [collect_merge_eq_keepNew]
  refine ⟨keepNew_sublist _ _, keepNew_pairwise _ _, ?_⟩
  intro u hu
  simpa using keepNew_filter rs.flatten [] u hu

theorem collect_merge_dedup_witness :
    (collect_merge exQueryResults).filter (fun r => r.url == "http://a.example")
      = (exQueryResults.flatten.filter (fun r => r.url == "http://a.example")).take 1 :=
  (collect_merge_dedup exQueryResults).2.2 "http://a.example" (by decide)

/-- C3 counterexample: a fully successful invocation of
`execute_research_workflow` returns a dict that has NONE of the fields
`revised_draft`, `change_summary`, `source_count`, `query_count` the claim
names; the reflection pair is bound to the single key `improved_draft`. -/
theorem workflow_fields_counterexample :
    execute_research_workflow exEnv "quantum computing" none 5 200 = .ok exWorkflowDict
    ∧ exWorkflowDict.lookup "revised_draft" = none
    ∧ exWorkflowDict.lookup "change_summary" = none
    ∧ exWorkflowDict.lookup "source_count" = none
    ∧ exWorkflowDict.lookup "query_count" = none
    ∧ exWorkflowDict.lookup "improved_draft"
        = some (WFValue.pair "Better draft. [Source 1]" "Tightened wording.") := by
  exact ⟨by rfl, rfl, rfl, rfl, rfl, rfl⟩

/-- C3 (amended): every successful invocation returns the dict with exactly
the four keys `draft`, `improved_draft`, `sources_count`, `queries_count`,
in which `improved_draft` is bound to the pair of texts (revised draft,
change summary) produced by the reflection stage, `draft` to the
synthesizer output, `sources_count` to the number of collected sources and
`queries_count` to the number of planned queries. -/
theorem workflow_result_fields (env : WorkflowEnv) (topic : String)
    (requirements : Option String) (msq mql : Nat) (res : List (String × WFValue))
    (h : execute_research_workflow env topic requirements msq mql = .ok res) :
    ∃ (sources : List SourceRecord) (draft : String) (pair : String × String),
      collect_all_sources env.search (split_query topic requirements mql env.splitGen) msq
        = .ok sources
      ∧ create_draft_from_sources topic sources requirements env.draftGen = .ok draft
      ∧ validate_and_improve env.reflectGen draft topic requirements = .ok pair
      ∧ res = [("draft", WFValue.str draft),
               ("improved_draft", WFValue.pair pair.1 pair.2),
               ("sources_count", WFValue.num sources.length),
               ("queries_count",
                 WFValue.num (split_query topic requirements mql env.splitGen).length)] := by
  simp only [execute_research_workflow] at h
  split at h
  next e hc => simp at h
  next sources hc =>
    split at h
    next e hd => simp at h
    next draft hd =>
      split at h
      next e hv => simp at h
      next pair hv =>
        simp only [Except.ok.injEq] at h
        exact ⟨sources, draft, pair, hc, hd, hv, h.symm⟩

theorem workflow_result_fields_witness :
    ∃ (sources : List SourceRecord) (draft : String) (pair : String × String),
      collect_all_sources exEnv.search (split_query "quantum computing" none 200 exEnv.splitGen) 5
        = .ok sources
      ∧ create_draft_from_sources "quantum computing" sources none exEnv.draftGen = .ok draft
      ∧ validate_and_improve exEnv.reflectGen draft "quantum computing" none = .ok pair
      ∧ exWorkflowDict = [("draft", WFValue.str draft),
               ("improved_draft", WFValue.pair pair.1 pair.2),
               ("sources_count", WFValue.num sources.length),
               ("queries_count",
                 WFValue.num (split_query "quantum computing" none 200 exEnv.splitGen).length)] :=
  workflow_result_fields exEnv "quantum computing" none 5 200 exWorkflowDict (by rfl)

/-- C4 counterexample: merging the same query results twice does NOT always
yield the same SourceSet as merging once — a record with empty url (such as
a search-provider summary) is appended again on the second pass. -/
theorem merge_twice_counterexample :
    collect_merge (exEmptyUrlResults ++ exEmptyUrlResults) ≠ collect_merge exEmptyUrlResults := by
  decide

/-- C4 (amended): the merge is idempotent on query results all of whose
records carry a non-empty url — merging the same results twice yields the
same SourceSet as merging once.  (The unrestricted claim fails because
records with empty url are always appended, so a second pass duplicates
them; see the counterexample.) -/
theorem merge_idempotent_nonempty (rs : List (List SourceRecord))
    (h : ∀ l ∈ rs, ∀ r ∈ l, r.url ≠ "") :
    collect_merge (rs ++ rs) = collect_merge rs := by
  have hflat : ∀ r ∈ rs.flatten, r.url ≠ "" := by
    intro r hr
    rcases List.mem_flatten.mp hr with ⟨l, hl, hrl⟩
    exact h l hl r hrl
  rw [collect_merge_eq_keepNew, collect_merge_eq_keepNew, List.flatten_append, keepNew_append]
  have h2 : keepNew (seenAfter [] rs.flatten) rs.flatten = [] := by
    apply keepNew_eq_nil_of_seen
    intro r hr
    exact ⟨hflat r hr, mem_seenAfter rs.flatten [] r hr (hflat r hr)⟩
  rw [h2, List.append_nil]

theorem merge_idempotent_nonempty_witness :
    collect_merge (exNonEmptyResults ++ exNonEmptyResults) = collect_merge exNonEmptyResults :=
  merge_idempotent_nonempty exNonEmptyResults (by decide)

/-- C5: evaluation of the code at the failing input.  The summary IS placed
first, but the code gives it url `"Tavily Summary"` — a NON-empty url, not
the zero identity the claim (and the collector's own comment about sources
without URLs) describes — and consequently two summaries produced by two
queries are deduplicated against each other by the collector: only the
first survives. -/
theorem summary_record_nonempty_url :
    searchSourcesExtract exAnswerResponse
      = exSummaryBuilt :: exAnswerResponse.results
    ∧ exSummaryBuilt.url = "Tavily Summary"
    ∧ exSummaryBuilt.url ≠ ""
    ∧ collect_merge [searchSourcesExtract exAnswerResponse,
        searchSourcesExtract exAnswerResponse]
      = exSummaryBuilt :: exAnswerResponse.results := by
  exact ⟨by rfl, rfl, by decide, by decide⟩

/-- C6: the planner absorbs its failures — a failed generation call falls
back to `[topic]`, a parse yielding zero qualifying queries falls back to
`[topic]` (no error reaches the caller: `split_query` is a total function
into `List String`), and the returned QueryList is never empty. -/
theorem split_query_fallback (topic : String) (requirements : Option String) (mql : Nat) :
    (∀ e : String, split_query topic requirements mql (fun _ => .error e) = [topic])
    ∧ (∀ (gen : String → Except String String) (content : String),
        gen (splitPrompt topic requirements) = .ok content →
        parseQueries (pyStrip content) = [] →
        split_query topic requirements mql gen = [topic])
    ∧ (∀ gen : String → Except String String, split_query topic requirements mql gen ≠ []) := by
  refine ⟨?_, ?_, ?_⟩
  · intro e
    rw [split_query]
    split
    · rfl
    · rfl
  · intro gen content hgen hparse
    rw [split_query]
    split
    · rfl
    · rw [hgen]
      simp [hparse]
  · intro gen
    rw [split_query]
    split
    · simp
    · cases hg : gen (splitPrompt topic requirements) with
      | error e => simp
      | ok content =>
        by_cases hp : parseQueries (pyStrip content) = []
        · simp [hp]
        · simp [hp]

theorem split_query_fallback_witness :
    split_query "quantum computing" none 200 (fun _ => .error "timeout")
      = ["quantum computing"] :=
  (split_query_fallback "quantum computing" none 200).1 "timeout"

/-- C7: when the combined request (topic plus requirements with separator)
fits within `max_query_length`, `split_query` returns exactly `[topic]`,
for EVERY generation oracle — i.e. without consulting the generation call
at all. -/
theorem split_query_short_circuit (topic : String) (requirements : Option String)
    (mql : Nat) (gen : String → Except String String)
    (h : (fullRequest topic requirements).length ≤ mql) :
    split_query topic requirements mql gen = [topic] := by
  rw [split_query, if_pos h]

theorem split_query_short_circuit_witness :
    (fullRequest "solid state batteries" none).length ≤ 200
    ∧ split_query "solid state batteries" none 200 (fun _ => .error "never consulted")
        = ["solid state batteries"] :=
  ⟨by decide,
   split_query_short_circuit "solid state batteries" none 200
     (fun _ => .error "never consulted") (by decide)⟩

/-- C8: synthesis from an empty source list fails with the
`EmptySourceError` message raised at line 191 of research_agent.py, for
EVERY generation oracle — the `ValueError` is raised before the generation
call, so no generation call is performed. -/
theorem create_draft_empty_sources (topic : String) (requirements : Option String)
    (gen : String → Except String String) :
    create_draft_from_sources topic [] requirements gen
      = .error "No sources provided. Cannot create draft without sources." := rfl

/-- C9 counterexample: claim C9's "iff" fails — a line with no leading
ordinal marker whose text is longer than 10 units qualifies under the
claim's stated rule, yet the parser silently drops it, because the code
additionally requires the stripped line to begin with a digit or a dash. -/
theorem parse_queries_iff_counterexample :
    specQualifies "unmarked line that is long enough" = true
    ∧ parseQueries "unmarked line that is long enough" = [] := by
  exact ⟨by decide, by decide⟩

/-- C9 (amended): a produced line qualifies as a query if and only if the
stripped line is non-empty AND begins with a digit or a dash, and the
extracted query — the stripped text after the first `.` when the line
contains one, otherwise the line with leading `-`/space characters
stripped — is non-empty with length greater than 10; qualifying lines
contribute exactly their extracted query, and every other line is silently
dropped.  Formally: the parse is the filterMap of the per-line rule
`lineQuery` over the response's lines. -/
theorem parse_queries_characterization (t : String) :
    parseQueries t = (pySplitS "\n" t).filterMap lineQuery := by
  rw [parseQueries]
  simpa using foldl_filterMap_gen lineQuery _ parseQueries_step (pySplitS "\n" t) []

/-- C10: for every response string containing `[IMPROVED_DRAFT]`, splitting
on that delimiter produces at least two parts, so the inner `len(parts) > 1`
guard of the reflection parser never fails: `parseReflection` agrees
everywhere with the same parser with that dead branch (the one yielding
"Could not parse changes summary from response.") excised. -/
theorem improved_draft_split_branch (s : String) :
    (pyIn "[IMPROVED_DRAFT]" s = true → 1 < (pySplitS "[IMPROVED_DRAFT]" s).length)
    ∧ parseReflection s = parseReflectionNoFallback s := by
  constructor
  · intro h
    exact one_lt_pySplitS_length "[IMPROVED_DRAFT]" s (by decide) h
  · rw [parseReflection, parseReflectionNoFallback]
    by_cases hc : (pyIn "[IMPROVED_DRAFT]" s && pyIn "[CHANGES_SUMMARY]" s) = true
    · rw [if_pos hc, if_pos hc]
      have hc2 := hc
      simp only [Bool.and_eq_true] at hc2
      have h1 : pyIn "[IMPROVED_DRAFT]" s = true := hc2.1
      have h2 : 1 < (pySplitS "[IMPROVED_DRAFT]" s).length :=
        one_lt_pySplitS_length "[IMPROVED_DRAFT]" s (by decide) h1
      rw [if_pos h2]
    · rw [if_neg hc, if_neg hc]

theorem improved_draft_split_branch_witness :
    1 < (pySplitS "[IMPROVED_DRAFT]" "[IMPROVED_DRAFT] the draft").length :=
  (improved_draft_split_branch "[IMPROVED_DRAFT] the draft").1 (by decide)
